import Mathlib

/-!
# cs-checker: a verification development for `main.go`

The program parses one command-line flag (`--domain`), sends one HTTP GET
request to a fixed endpoint, decodes the JSON answer and prints the cipher
suites.  This file embeds `CLI.Run` and `checkDomain` of `main.go` in Lean.

Conventions of the embedding.

* A Go `string` is a Lean `String` (a sequence of Unicode scalar values, that
  is, a valid UTF-8 byte string).  Where Go works on the bytes of a string
  (`url.QueryEscape`) the model works on `utf8 s`.
* A run-time panic of Go is an explicit outcome (`Exit.panicked`).
* The functions of the Go standard library that `main.go` calls are modelled
  next to the code that calls them: `flag.FlagSet.Parse` for the one string
  flag the program defines, `fmt.Fprintf` (for a format without operands the
  verb scanner of `doPrintf`), `url.QueryEscape`, `url.Values`.
* The network and the JSON decoder are inputs of the model: the transport maps
  the call `client.Do(req)` to an error or a response, and the body of a
  response is represented by what `Decode(&result)` does with it.
* The requests that one call of `client.Do` sends are modelled apart
  (`requestsSent`): the client of lines 68-69 has no `CheckRedirect`, so it
  follows redirects; the server maps a request on the wire to its answer.
-/

namespace CsChecker

/-! ## Exit codes (`main.go`, lines 14-19) -/

/-- Model of `ExitCodeOK = iota`. -/
def ExitCodeOK : Int := 0
/-- Second constant of the `iota` block. -/
def ExitCodeParseFlagError : Int := 1
/-- Third constant of the `iota` block. -/
def ExitCodeNotExsistsDomainError : Int := 2
/-- Fourth constant of the `iota` block. -/
def ExitCodeCheckFalseError : Int := 3

/-! ## Package `flag`: a flag set with the single string flag `domain` -/

/-- The state of the flag set built in `CLI.Run`: the arguments still to be
parsed, the variable `domain` bound by `StringVar` and the text written so far
to the output of the flag set (`flags.SetOutput(c.errStream)`). -/
structure FlagSet where
  args : List String
  domain : String
  output : String

/-- Text of `defaultUsage` for the flag set `tls-checker` with the flag
`domain` (usage `check domain`, default value empty): the `Usage of` line and
`PrintDefaults`. -/
def usageText : String :=
  "Usage of tls-checker:\n  -domain string\n    \tcheck domain\n"

/-- Model of `FlagSet.failf`: prints the message and the usage to the output and
returns the message as the error. -/
def failf (f : FlagSet) (msg : String) : Bool × Option String × FlagSet :=
  (false, some msg, { f with output := f.output ++ msg ++ "\n" ++ usageText })

/-- The loop of `parseOne` that looks for the first `=` at an index of at
least one in `name`: the name before it and, when present, the value after. -/
def splitName (n0 : Char) (ns : List Char) : List Char × Option (List Char) :=
  match ns.span (fun c => c != '=') with
  | (before, _ :: value) => (n0 :: before, some value)
  | (before, []) => (n0 :: before, none)

/-- Model of `FlagSet.parseOne`: parses one flag.  The result is `(seen, err, state)`.
The only formal flag is the string flag `domain`. -/
def parseOne (f : FlagSet) : Bool × Option String × FlagSet :=
  match f.args with
  | [] => (false, none, f)
  | s :: rest =>
    match s.data with
    | '-' :: c :: cs =>
      if c = '-' ∧ cs = [] then
        -- "--" terminates the flags
        (false, none, { f with args := rest })
      else
        match (if c = '-' then cs else c :: cs) with
        | [] => failf f ("bad flag syntax: " ++ s)
        | n0 :: ns =>
          if n0 = '-' ∨ n0 = '=' then failf f ("bad flag syntax: " ++ s)
          else
            let f1 : FlagSet := { f with args := rest }
            let name := String.mk (splitName n0 ns).1
            if name = "domain" then
              match (splitName n0 ns).2, rest with
              | some value, _ => (true, none, { f1 with domain := String.mk value })
              | none, value :: rest2 =>
                (true, none, { f1 with args := rest2, domain := value })
              | none, [] => failf f1 ("flag needs an argument: -" ++ name)
            else if name = "help" ∨ name = "h" then
              (false, some "flag: help requested",
                { f1 with output := f1.output ++ usageText })
            else failf f1 ("flag provided but not defined: -" ++ name)
    | _ => (false, none, f)

/-- The loop of `FlagSet.Parse` with `ContinueOnError`: call `parseOne` until
it reports no flag; an error is returned at once.  The first argument bounds
the number of iterations; `Parse` passes a bound that is never reached. -/
def parseLoop : Nat → FlagSet → Option String × FlagSet
  | 0, f => (none, f)
  | n + 1, f =>
    match parseOne f with
    | (true, _, f1) => parseLoop n f1
    | (false, err, f1) => (err, f1)

/-- Model of `FlagSet.Parse(arguments)`. -/
def Parse (f : FlagSet) (arguments : List String) : Option String × FlagSet :=
  parseLoop (arguments.length + 1) { f with args := arguments }

/-! ## Package `fmt`: `Fprintf` -/

/-- Model of `tooLarge` of package `fmt`. -/
def tooLarge (x : Nat) : Bool := decide (x > 1000000)

/-- Model of `parsenum`: the number at the start of the text, whether there is one,
and the text after it.  When the number is too large the scan gives up and
jumps to the end of the text. -/
def parsenum : List Char → Nat → Bool → Nat × Bool × List Char
  | [], num, isnum => (num, isnum, [])
  | c :: cs, num, isnum =>
    if '0' ≤ c ∧ c ≤ '9' then
      if tooLarge num then (0, false, [])
      else parsenum cs (num * 10 + (c.toNat - '0'.toNat)) true
    else (num, isnum, c :: cs)

/-- Model of `parseArgNumber` on a text that starts with `[`: the text after the
argument index and whether the index is well formed. -/
def parseArgNumber (format : List Char) : List Char × Bool :=
  if format.length < 3 then (format.drop 1, false)
  else
    match (format.drop 1).span (fun c => c != ']') with
    | (seg, _ :: rest) =>
      match parsenum seg 0 false with
      | (_, true, []) => (rest, true)
      | _ => (rest, false)
    | (_, []) => (format.drop 1, false)

/-- Model of `pp.argNumber` when the call has no operands: the text after an explicit
argument index, whether one was found, and `goodArgNum`.  No index is in range
when there is no operand, so a bracket always clears `goodArgNum`. -/
def argNumber (format : List Char) (good : Bool) : List Char × Bool × Bool :=
  match format with
  | '[' :: _ => ((parseArgNumber format).1, (parseArgNumber format).2, false)
  | _ => (format, false, good)

/-- The flag characters skipped at the start of a verb. -/
def isFlagChar (c : Char) : Bool :=
  c == '#' || c == '0' || c == '+' || c == '-' || c == ' '

/-- The width of a verb, for a call without operands: the text after it, the
text written, `afterIndex` and `goodArgNum`.  A `*` finds no operand and
writes `%!(BADWIDTH)`. -/
def widthStep (r : List Char) (afterIndex good : Bool) :
    List Char × List Char × Bool × Bool :=
  match r with
  | '*' :: t => (t, "%!(BADWIDTH)".data, false, good)
  | _ =>
    ((parsenum r 0 false).2.2, [], afterIndex,
      good && !(afterIndex && (parsenum r 0 false).2.1))

/-- The precision of a verb, for a call without operands: the text after it,
the text written, `afterIndex` and `goodArgNum`.  A `*` finds no operand and
writes `%!(BADPREC)`. -/
def precStep (r : List Char) (afterIndex good : Bool) :
    List Char × List Char × Bool × Bool :=
  match r with
  | '.' :: t =>
    match (argNumber t (good && !afterIndex)).1 with
    | '*' :: t2 => (t2, "%!(BADPREC)".data, false, (argNumber t (good && !afterIndex)).2.2)
    | t1 =>
      ((parsenum t1 0 false).2.2, [], (argNumber t (good && !afterIndex)).2.1,
        (argNumber t (good && !afterIndex)).2.2)
  | _ => (r, [], afterIndex, good)

/-- The argument index that may stand right before the verb character; it is
looked for only when the previous item was not an index. -/
def indexStep (r : List Char) (afterIndex good : Bool) : List Char × Bool :=
  if afterIndex then (r, good) else ((argNumber r good).1, (argNumber r good).2.2)

/-- The verb character, for a call without operands: `%%` writes `%`, a bad
index writes `%!v(BADINDEX)`, any other verb has no operand and writes
`%!v(MISSING)`; a format that ends here writes `%!(NOVERB)` and ends the loop
(`none`). -/
def verbChar (r : List Char) (good : Bool) : List Char × Option (List Char) :=
  match r with
  | [] => ("%!(NOVERB)".data, none)
  | verb :: rest =>
    if verb = '%' then (['%'], some rest)
    else if !good then ("%!".data ++ [verb] ++ "(BADINDEX)".data, some rest)
    else ("%!".data ++ [verb] ++ "(MISSING)".data, some rest)

/-- One verb of `doPrintf` when the call has no operands: from the text after
the `%` to the text written and the rest of the format (`none` when the
format ended before a verb and the loop is left).  In order: flags, argument
index, width, precision, argument index, verb. -/
def verbStep (afterPercent : List Char) : List Char × Option (List Char) :=
  let r1 := afterPercent.dropWhile isFlagChar
  let a := argNumber r1 true
  let w := widthStep a.1 a.2.1 a.2.2
  let p := precStep w.1 w.2.2.1 w.2.2.2
  let i := indexStep p.1 p.2.2.1 p.2.2.2
  let v := verbChar i.1 i.2
  (w.2.1 ++ p.2.1 ++ v.1, v.2)

/-- The format loop of `doPrintf` for a call without operands.  The first
argument bounds the number of verbs; `Sprintf0` passes a bound that is never
reached. -/
def doPrintf : Nat → List Char → List Char
  | 0, _ => []
  | n + 1, format =>
    match format.span (fun c => c != '%') with
    | (lit, []) => lit
    | (lit, _ :: afterPercent) =>
      match verbStep afterPercent with
      | (out, none) => lit ++ out
      | (out, some rest) => lit ++ out ++ doPrintf n rest

/-- The text `fmt.Fprintf(w, format)` writes when no operand is passed. -/
def Sprintf0 (format : String) : String :=
  String.mk (doPrintf (format.length + 1) format.data)

/-! ## Package `net/url`: query escaping and `url.Values` -/

/-- The bytes of a Go string. -/
abbrev GoBytes := List UInt8

/-- The UTF-8 bytes of a string. -/
def utf8 (s : String) : GoBytes := s.data.flatMap String.utf8EncodeChar

/-- Model of `shouldEscape(c, encodeQueryComponent)`: everything is escaped except the
unreserved characters (letters, digits, `-`, `_`, `.`, `~`). -/
def shouldEscape (c : UInt8) : Bool :=
  let n := c.toNat
  if (97 ≤ n ∧ n ≤ 122) ∨ (65 ≤ n ∧ n ≤ 90) ∨ (48 ≤ n ∧ n ≤ 57) then false
  else if n = 45 ∨ n = 95 ∨ n = 46 ∨ n = 126 then false
  else true

/-- The table `upperhex`. -/
def upperhex (n : Nat) : Char := "0123456789ABCDEF".data.getD n '0'

/-- What `escape` writes for one byte in mode `encodeQueryComponent`: a space
becomes `+`, another byte to escape becomes `%XX`, the rest is copied. -/
def escapeByte (c : UInt8) : List Char :=
  if shouldEscape c then
    if c.toNat = 32 then ['+']
    else ['%', upperhex (c.toNat / 16), upperhex (c.toNat % 16)]
  else [Char.ofNat c.toNat]

/-- Model of `url.QueryEscape`. -/
def QueryEscape (s : GoBytes) : String := String.mk (s.flatMap escapeByte)

/-- Model of `ishex`. -/
def ishex (c : Char) : Bool :=
  ('0' ≤ c ∧ c ≤ '9') || ('a' ≤ c ∧ c ≤ 'f') || ('A' ≤ c ∧ c ≤ 'F')

/-- Model of `unhex`. -/
def unhex (c : Char) : Nat :=
  if '0' ≤ c ∧ c ≤ '9' then c.toNat - '0'.toNat
  else if 'a' ≤ c ∧ c ≤ 'f' then c.toNat - 'a'.toNat + 10
  else if 'A' ≤ c ∧ c ≤ 'F' then c.toNat - 'A'.toNat + 10
  else 0

/-- First pass of `unescape`: every `%` is followed by two hex digits. -/
def validEscapes : List Char → Bool
  | [] => true
  | '%' :: a :: b :: rest => ishex a && ishex b && validEscapes rest
  | '%' :: _ => false
  | _ :: rest => validEscapes rest

/-- Second pass of `unescape` in mode `encodeQueryComponent`: `%XX` becomes
the byte, `+` becomes a space, the rest is copied. -/
def unescapeBytes : List Char → GoBytes
  | [] => []
  | '%' :: a :: b :: rest => UInt8.ofNat (unhex a * 16 + unhex b) :: unescapeBytes rest
  | '+' :: rest => 32 :: unescapeBytes rest
  | c :: rest => String.utf8EncodeChar c ++ unescapeBytes rest

/-- Model of `url.QueryUnescape`; `none` is the `EscapeError`. -/
def QueryUnescape (s : List Char) : Option GoBytes :=
  if validEscapes s then some (unescapeBytes s) else none

/-- Model of `url.Values`, a map from a key to its values, kept as an association
list with one entry for each key. -/
abbrev Values := List (GoBytes × List GoBytes)

/-- Model of `Values.Add`: `v[key] = append(v[key], value)`. -/
def Values.Add : Values → GoBytes → GoBytes → Values
  | [], key, value => [(key, [value])]
  | (k, vs) :: rest, key, value =>
    if k = key then (k, vs ++ [value]) :: rest
    else (k, vs) :: Values.Add rest key value

/-- Model of `v[key]`. -/
def Values.Get (v : Values) (key : GoBytes) : List GoBytes :=
  match v.find? (fun e => e.1 = key) with
  | some e => e.2
  | none => []

/-- Order of Go strings: bytewise lexicographic. -/
def bytesLE : GoBytes → GoBytes → Bool
  | [], _ => true
  | _ :: _, [] => false
  | a :: as, b :: bs =>
    if a.toNat < b.toNat then true
    else if b.toNat < a.toNat then false
    else bytesLE as bs

/-- Joins the pieces with `&`. -/
def joinAmp : List (List Char) → List Char
  | [] => []
  | [p] => p
  | p :: q :: ps => p ++ '&' :: joinAmp (q :: ps)

/-- Model of `Values.Encode`: the keys in sorted order, each value as
`key=value`, both query-escaped, joined by `&`. -/
def Values.Encode (v : Values) : String :=
  let keys := (v.map Prod.fst).insertionSort (fun a b => bytesLE a b = true)
  String.mk (joinAmp (keys.flatMap (fun k =>
    (Values.Get v k).map (fun value =>
      (QueryEscape k).data ++ '=' :: (QueryEscape value).data))))

/-- Model of `strings.Cut(s, sep)` for a separator of one character. -/
def cut (sep : Char) : List Char → List Char × List Char
  | [] => ([], [])
  | c :: cs => if c = sep then ([], cs) else (c :: (cut sep cs).1, (cut sep cs).2)

/-- The pieces of a text between the separators; a text that ends with a
separator has no empty last piece. -/
def splitSep (sep : Char) : List Char → List (List Char)
  | [] => []
  | c :: cs =>
    if c = sep then [] :: splitSep sep cs
    else
      match splitSep sep cs with
      | [] => [[c]]
      | p :: ps => (c :: p) :: ps

/-- The pieces of a query between the `&`: what the loop of `parseQuery`
takes one by one with `strings.Cut(query, "&")`. -/
def splitAmp (query : List Char) : List (List Char) := splitSep '&' query

/-- The body of the loop of `parseQuery` for one piece: the values so far and
whether an error was met. -/
def parsePiece (acc : Values × Bool) (piece : List Char) : Values × Bool :=
  if piece.contains ';' then (acc.1, true)
  else if piece = [] then acc
  else
    match QueryUnescape (cut '=' piece).1, QueryUnescape (cut '=' piece).2 with
    | some key, some value => (Values.Add acc.1 key value, acc.2)
    | _, _ => (acc.1, true)

/-- Model of `url.ParseQuery`: the values and whether an error was returned. -/
def ParseQuery (query : String) : Values × Bool :=
  (splitAmp query.data).foldl parsePiece ([], false)

/-! ## The data model: `TLSStatus` (`main.go`, lines 94-188) -/

/-- A value decoded into a field of type `interface{}`; a number is kept as
its literal. -/
inductive AnyValue where
  | null
  | bool (b : Bool)
  | number (literal : String)
  | string (s : String)
  | array (items : List AnyValue)
  | object (members : List (String × AnyValue))

/-- Field `ocspCheck` of `revocationCheckModel`. -/
structure OcspCheck where
  OcspCheckStatus : String := ""
  OcspStatus : String := ""
  Reason : AnyValue := AnyValue.null

/-- Field `revocationCheckModel` of a certificate. -/
structure RevocationCheckModel where
  OcspCheck : OcspCheck := {}
  CrlCheck : AnyValue := AnyValue.null

/-- Field `revocationDetails` of a certificate. -/
structure RevocationDetails where
  Method : String := ""
  Status : String := ""
  Reason : AnyValue := AnyValue.null

/-- An element of `certAlgList[i].certList`. -/
structure Cert where
  CertType : String := ""
  IssuedByOrg : List String := []
  IssuedByCommonName : List String := []
  IssuedByCountry : List String := []
  SerialNumberHex : String := ""
  FetchType : String := ""
  RevocationCheckModel : RevocationCheckModel := {}
  ProductType : String := ""
  SctPresent : Int := 0
  O : List String := []
  OU : List String := []
  CN : List String := []
  L : List String := []
  C : List String := []
  S : List String := []
  ValidFrom : String := ""
  ValidTo : String := ""
  SigAlg : String := ""
  KeyLength : String := ""
  SanList : String := ""
  RevocationDetails : RevocationDetails := {}
  IssuedByOrgUnit : List String := []

/-- An element of `certAlgList`. -/
structure CertAlg where
  Codes : List String := []
  Algorithm : String := ""
  CertList : List Cert := []

/-- An element of `serverCertAlgList[i].certList`. -/
structure ServerCert where
  IssuedByOrg : List String := []
  IssuedByCommonName : List String := []
  IssuedByCountry : List String := []
  SerialNumberHex : String := ""
  ProductType : String := ""
  SctPresent : Int := 0
  O : List String := []
  OU : List String := []
  CN : List String := []
  L : List String := []
  C : List String := []
  S : List String := []
  ValidFrom : String := ""
  ValidTo : String := ""
  SigAlg : String := ""
  KeyLength : String := ""
  SanList : String := ""
  IssuedByOrgUnit : List String := []

/-- An element of `serverCertAlgList`. -/
structure ServerCertAlg where
  Algorithm : String := ""
  CertList : List ServerCert := []

/-- Field `Protocols` of `sslConfig`. -/
structure Protocols where
  Sslv2Status : Bool := false
  Sslv3Status : Bool := false
  Tlsv1Status : Bool := false
  Tlsv11Status : Bool := false
  Tlsv12Status : Bool := false

/-- Field `sslConfig`.  A nil slice and an empty slice are both the empty
list: `range` does not tell them apart. -/
structure SslConfig where
  CipherSuites : List String := []
  PortNumber : Int := 0
  IPAddress : String := ""
  HTTPServerSignature : String := ""
  ServerName : String := ""
  Hsts : String := ""
  Heartbleed : Bool := false
  Poodle : Bool := false
  Poodletls : Bool := false
  Freak : Bool := false
  Beast : Bool := false
  Crime : Bool := false
  Npn : Bool := false
  SecureRenegotiation : Bool := false
  DowngradeAttackPrevention : String := ""
  SessionTickets : Bool := false
  SessionCache : Bool := false
  Protocols : Protocols := {}
  CompressionStatus : Bool := false
  Rc4Status : Bool := false
  HeartbeatStatus : Bool := false
  OcspStaplingStatus : Bool := false

/-- The decoded answer of the service.  The default values are the zero
values of Go, so `{}` is `TLSStatus{}`. -/
structure TLSStatus where
  HostName : String := ""
  CertAlgList : List CertAlg := []
  ServerCertAlgList : List ServerCertAlg := []
  SslConfig : SslConfig := {}

/-! ## The environment: HTTP transport and JSON decoder -/

/-- The fields of `url.URL` the program uses. -/
structure URL where
  Scheme : String
  Host : String
  Path : String
  RawQuery : String

/-- Model of `URL.String` for a URL with scheme, host, path and query. -/
def URL.String (u : URL) : String :=
  u.Scheme ++ "://" ++ u.Host ++ u.Path ++
    (if u.RawQuery = "" then "" else "?" ++ u.RawQuery)

/-- An `http.Request`: method, URL, header (a key with its values) and the
body (`none` is the nil body). -/
structure Request where
  Method : String
  URL : URL
  Header : List (String × List String)
  Body : Option String

/-- An `http.Client`: the timeout is a `time.Duration`, in nanoseconds. -/
structure Client where
  Timeout : Int

/-- Model of `time.Second`, in nanoseconds. -/
def Second : Int := 1000000000

/-- One call `client.Do(req)`. -/
structure Call where
  client : Client
  req : Request

/-- What `json.NewDecoder(resp.Body).Decode(&result)` does for a body, where
`result` points to a fresh `TLSStatus{}` before the call: the pointer `result`
afterwards (`none` is the nil pointer) and the error returned. -/
structure DecodeOutcome where
  result : Option TLSStatus
  err : Option String

/-- An `http.Response`: status code, status text (such as `200 OK`) and the
body, given by what the decoder does with it. -/
structure Response where
  StatusCode : Int
  Status : String
  Body : DecodeOutcome

/-- The transport: the result of `client.Do(req)`, an error or a response. -/
abbrev Transport := Call → Except String Response

/-- The body `null`.  The decode target is `&result`, a pointer to the
pointer `result`; for the JSON literal `null` the decoder sets the pointer it
finds behind the target to nil and returns no error. -/
def nullBody : DecodeOutcome := { result := none, err := none }

/-- A body the decoder accepts and that leaves the cipher suites `cs` in the
result, the other fields zero. -/
def bodyWith (cs : List String) : DecodeOutcome :=
  { result := some { SslConfig := { CipherSuites := cs } }, err := none }

/-- A body the decoder rejects with the message `msg`; the pointer still
points to the `TLSStatus{}` allocated in `checkDomain`. -/
def badBody (msg : String) : DecodeOutcome :=
  { result := some {}, err := some msg }

/-- A transport that answers every request with the same response. -/
def respond (resp : Response) : Transport := fun _ => Except.ok resp

/-! ## `checkDomain` (`main.go`, lines 55-83) -/

/-- The URL `url.Parse` returns for `endpoint`. -/
def endpointURL : URL :=
  { Scheme := "https", Host := "cryptoreport.geotrust.com",
    Path := "/chainTester/webservice/validatecerts/json", RawQuery := "" }

/-- Model of `http.NewRequest("GET", u.String(), nil)` for the endpoint.  The method
and the URL are constants for which the call returns no error, so the branch
of line 58 is never taken. -/
def NewRequest : Request :=
  { Method := "GET", URL := endpointURL, Header := [], Body := none }

/-- Model of `Header.Add` for a key in canonical form. -/
def headerAdd : List (String × List String) → String → String →
    List (String × List String)
  | [], key, value => [(key, [value])]
  | (k, vs) :: rest, key, value =>
    if k = key then (k, vs ++ [value]) :: rest
    else (k, vs) :: headerAdd rest key value

/-- The request built in lines 57-66 and the client of lines 68-69. -/
def buildCall (domain : String) : Call :=
  let req := NewRequest
  let q := (ParseQuery req.URL.RawQuery).1
  let q := Values.Add q (utf8 "domain") (utf8 domain)
  let q := Values.Add q (utf8 "port") (utf8 "443")
  let req := { req with URL := { req.URL with RawQuery := Values.Encode q } }
  let req := { req with Header := headerAdd req.Header "Content-Type" "application/json" }
  { client := { Timeout := 60 * Second }, req := req }

/-- What `checkDomain` returns and does: the pointer and the error returned,
the calls of `client.Do`, and whether the body was handed to the decoder. -/
structure CheckResult where
  result : Option TLSStatus
  err : Option String
  calls : List Call
  decoded : Bool

/-- Model of `checkDomain` (`main.go`, lines 55-83). -/
def checkDomain (transport : Transport) (domain : String) : CheckResult :=
  let call := buildCall domain
  match transport call with
  | Except.error e => { result := none, err := some e, calls := [call], decoded := false }
  | Except.ok resp =>
    if resp.StatusCode < 200 ∨ resp.StatusCode > 299 then
      { result := none, err := some ("API result failed: " ++ resp.Status),
        calls := [call], decoded := false }
    else
      { result := resp.Body.result, err := resp.Body.err, calls := [call], decoded := true }

/-! ## The client on the wire: `client.Do` follows redirects -/

/-- How a call of `Run` ends: it returns an exit code or panics. -/
inductive Exit where
  | returned (code : Int)
  | panicked
  deriving DecidableEq, Repr

/-- What `Run` does: how it ends, the text written to `c.outStream` and to
`c.errStream`, and the calls of `client.Do`. -/
structure RunResult where
  code : Exit
  out : String
  err : String
  calls : List Call

/-- The slice expression `args[1:]`; `none` is the panic `slice bounds out of
range` for a slice of length zero. -/
def sliceFrom1 (args : List String) : Option (List String) :=
  if 1 ≤ args.length then some (args.drop 1) else none

/-- Model of `fmt.Fprintf` with a format that has the single verb `%s`, without flags,
width or precision, between the texts `before` and `after`, and a string
operand: the operand is written unchanged. -/
def SprintfS (before after operand : String) : String :=
  before ++ operand ++ after

/-- The loop of lines 49-51. -/
def printCipherSuites (out : String) (cipherSuites : List String) : String :=
  cipherSuites.foldl (fun o cs => o ++ SprintfS "  - " "\n" cs) out

/-- The flag set of lines 28-30: no argument yet, `domain` at its default
value, nothing written. -/
def NewFlagSet : FlagSet := { args := [], domain := "", output := "" }

/-- Model of `CLI.Run` (`main.go`, lines 26-53). -/
def Run (transport : Transport) (args : List String) : RunResult :=
  match sliceFrom1 args with
  | none => { code := Exit.panicked, out := "", err := "", calls := [] }
  | some tail =>
    let parsed := Parse NewFlagSet tail
    let domain := parsed.2.domain
    let err0 := parsed.2.output
    match parsed.1 with
    | some _ =>
      { code := Exit.returned ExitCodeParseFlagError, out := "", err := err0, calls := [] }
    | none =>
      if domain = "" then
        { code := Exit.returned ExitCodeNotExsistsDomainError, out := "",
          err := err0 ++ Sprintf0 "Need Domain\n", calls := [] }
      else
        let out1 := SprintfS "Domain: " "\n" domain
        let r := checkDomain transport domain
        match r.err with
        | some e =>
          { code := Exit.returned ExitCodeCheckFalseError, out := out1,
            err := err0 ++ Sprintf0 e, calls := r.calls }
        | none =>
          let out2 := out1 ++ Sprintf0 "CipherSuites:\n"
          match r.result with
          | none => { code := Exit.panicked, out := out2, err := err0, calls := r.calls }
          | some result =>
            { code := Exit.returned ExitCodeOK,
              out := printCipherSuites out2 result.SslConfig.CipherSuites,
              err := err0, calls := r.calls }

/-! ## Reading the output -/

/-- The lines of a text: the pieces that a newline ends (a last piece without
a newline, when it is not empty, counts as a line). -/
def linesOf (text : String) : List String :=
  (splitSep '\n' text.data).map String.mk

/-! ## Lemmas on the library models -/

theorem span_no_match {p : Char → Bool} (l : List Char) (h : ∀ c ∈ l, p c = true) :
    l.span p = (l, []) := by
  rw [List.span_eq_take_drop]
  have h1 : l.takeWhile p = l := List.takeWhile_eq_self_iff.mpr h
  have h2 : l.dropWhile p = [] := List.dropWhile_eq_nil_iff.mpr h
  rw [h1, h2]

/-- A format without `%` is written unchanged. -/
theorem doPrintf_literal (n : Nat) (l : List Char) (h : '%' ∉ l) :
    doPrintf (n + 1) l = l := by
  have hs : l.span (fun c => c != '%') = (l, []) := by
    apply span_no_match
    intro c hc
    have : c ≠ '%' := fun e => h (e ▸ hc)
    simpa using this
  rw [doPrintf, hs]

theorem Sprintf0_literal (s : String) (h : '%' ∉ s.data) : Sprintf0 s = s := by
  simp [Sprintf0, doPrintf_literal _ _ h]

/-- A step of `parseOne` that does not fail leaves the output untouched. -/
theorem parseOne_output (f : FlagSet) (h : (parseOne f).2.1 = none) :
    (parseOne f).2.2.output = f.output := by
  revert h
  unfold parseOne failf
  repeat' split
  all_goals intro h
  all_goals first
    | (simp_all; done)
    | (generalize (String.mk (splitName _ _).1) = name at *
       by_cases h1 : name = "domain" <;> by_cases h2 : name = "help" <;>
         by_cases h3 : name = "h" <;> simp_all)

/-- A step of `parseOne` that sees a flag consumes an argument. -/
theorem parseOne_args (f : FlagSet) (h : (parseOne f).1 = true) :
    (parseOne f).2.2.args.length < f.args.length := by
  revert h
  unfold parseOne failf
  repeat' split
  all_goals intro h
  all_goals first
    | (simp_all; done)
    | (generalize (String.mk (splitName _ _).1) = name at *
       by_cases h1 : name = "domain" <;> by_cases h2 : name = "help" <;>
         by_cases h3 : name = "h" <;> simp_all <;> omega)

/-- A step of `parseOne` that sees a flag returns no error. -/
theorem parseOne_seen (f : FlagSet) (h : (parseOne f).1 = true) :
    (parseOne f).2.1 = none := by
  revert h
  unfold parseOne failf
  repeat' split
  all_goals intro h
  all_goals first
    | (simp_all; done)
    | (generalize (String.mk (splitName _ _).1) = name at *
       by_cases h1 : name = "domain" <;> by_cases h2 : name = "help" <;>
         by_cases h3 : name = "h" <;> simp_all)

/-- A parse that succeeds writes nothing. -/
theorem parseLoop_output (n : Nat) (f : FlagSet) (h : (parseLoop n f).1 = none) :
    (parseLoop n f).2.output = f.output := by
  induction n generalizing f with
  | zero => rfl
  | succ n ih =>
    rw [parseLoop] at h ⊢
    rcases hp : parseOne f with ⟨seen, err, f1⟩
    rw [hp] at h
    have hout := parseOne_output f
    have hseen := parseOne_seen f
    rw [hp] at hout hseen
    cases seen with
    | true =>
      simp only at h ⊢
      rw [ih f1 h]
      exact hout (hseen rfl)
    | false =>
      simp only at h ⊢
      exact hout h

/-- The bound on the iterations of `parseLoop` is not reached once it exceeds
the number of arguments: a larger bound gives the same result. -/
theorem parseLoop_fuel (n m : Nat) (f : FlagSet) (hn : f.args.length < n)
    (hm : f.args.length < m) : parseLoop n f = parseLoop m f := by
  induction n generalizing f m with
  | zero => omega
  | succ n ih =>
    cases m with
    | zero => omega
    | succ m =>
      rw [parseLoop, parseLoop]
      rcases hp : parseOne f with ⟨seen, err, f1⟩
      have hlen := parseOne_args f
      rw [hp] at hlen
      cases seen with
      | true =>
        simp only
        have := hlen rfl
        simp only at this
        exact ih m f1 (by omega) (by omega)
      | false => rfl

/-! ### The bound of `doPrintf` is never reached -/

theorem parsenum_length (l : List Char) (num : Nat) (isnum : Bool) :
    (parsenum l num isnum).2.2.length ≤ l.length := by
  induction l generalizing num isnum with
  | nil => simp [parsenum]
  | cons c cs ih =>
    rw [parsenum]
    split_ifs
    · simp
    · exact Nat.le_succ_of_le (ih _ _)
    · simp

theorem span_snd_length {p : Char → Bool} (l : List Char) :
    (l.span p).2.length ≤ l.length := by
  rw [List.span_eq_take_drop]
  exact (List.dropWhile_sublist p).length_le

theorem parseArgNumber_length (l : List Char) :
    (parseArgNumber l).1.length ≤ l.length := by
  unfold parseArgNumber
  have h := span_snd_length (p := fun c => c != ']') (l.drop 1)
  have hd : (l.drop 1).length ≤ l.length := by simp
  split_ifs
  · exact hd
  · split
    · rename_i seg x rest heq
      rw [heq] at h
      simp only [List.length_cons] at h
      split <;> simp only <;> omega
    · exact hd

theorem argNumber_length (l : List Char) (good : Bool) :
    (argNumber l good).1.length ≤ l.length := by
  unfold argNumber
  split
  · exact parseArgNumber_length _
  · exact Nat.le_refl _

theorem widthStep_length (r : List Char) (a g : Bool) :
    (widthStep r a g).1.length ≤ r.length := by
  unfold widthStep
  split
  · simp
  · exact parsenum_length _ _ _

theorem precStep_length (r : List Char) (a g : Bool) :
    (precStep r a g).1.length ≤ r.length := by
  unfold precStep
  split
  · rename_i t
    have h1 := argNumber_length t (g && !a)
    split
    · rename_i t2 heq
      rw [heq] at h1
      simp only [List.length_cons] at h1 ⊢
      omega
    · have h2 := parsenum_length (argNumber t (g && !a)).1 0 false
      simp only [List.length_cons]
      omega
  · exact Nat.le_refl _

theorem indexStep_length (r : List Char) (a g : Bool) :
    (indexStep r a g).1.length ≤ r.length := by
  unfold indexStep
  split_ifs
  · exact Nat.le_refl _
  · exact argNumber_length _ _

theorem verbChar_length (r : List Char) (g : Bool) (rest : List Char)
    (h : (verbChar r g).2 = some rest) : rest.length < r.length := by
  unfold verbChar at h
  split at h
  · simp at h
  · split_ifs at h <;> simp_all

/-- The rest of the format after a verb is no longer than the text after the
`%`. -/
theorem verbStep_length (l rest : List Char) (h : (verbStep l).2 = some rest) :
    rest.length < l.length + 1 := by
  unfold verbStep at h
  simp only at h
  have h0 : (l.dropWhile isFlagChar).length ≤ l.length :=
    (List.dropWhile_sublist isFlagChar).length_le
  have h1 := argNumber_length (l.dropWhile isFlagChar) true
  have h2 := widthStep_length (argNumber (l.dropWhile isFlagChar) true).1
    (argNumber (l.dropWhile isFlagChar) true).2.1 (argNumber (l.dropWhile isFlagChar) true).2.2
  generalize widthStep _ _ _ = w at h h2
  have h3 := precStep_length w.1 w.2.2.1 w.2.2.2
  generalize precStep _ _ _ = p at h h3
  have h4 := indexStep_length p.1 p.2.2.1 p.2.2.2
  generalize indexStep _ _ _ = i at h h4
  have h5 := verbChar_length i.1 i.2 rest h
  omega

/-- The bound on the verbs of `doPrintf` is not reached once it exceeds the
length of the format: a larger bound gives the same text. -/
theorem doPrintf_fuel (n m : Nat) (l : List Char) (hn : l.length < n) (hm : l.length < m) :
    doPrintf n l = doPrintf m l := by
  induction n generalizing l m with
  | zero => omega
  | succ n ih =>
    cases m with
    | zero => omega
    | succ m =>
      rw [doPrintf, doPrintf]
      have hs := span_snd_length (p := fun c => c != '%') l
      rcases hsp : l.span (fun c => c != '%') with ⟨lit, _ | ⟨x, ap⟩⟩
      · rfl
      · rw [hsp] at hs
        simp only [List.length_cons] at hs
        simp only
        rcases hv : verbStep ap with ⟨out, _ | rest⟩
        · rfl
        · have := verbStep_length ap rest (by rw [hv])
          simp only
          rw [ih m rest (by omega) (by omega)]

/-! ### Query escaping round trip -/

theorem splitSep_append (sep : Char) (l r : List Char) (h : sep ∉ l) :
    splitSep sep (l ++ sep :: r) = l :: splitSep sep r := by
  induction l with
  | nil => simp [splitSep]
  | cons c l ih =>
    have hc : c ≠ sep := fun e => h (by simp [e])
    have hl : sep ∉ l := fun e => h (by simp [e])
    simp [splitSep, hc, ih hl]

/-- A parse that succeeds writes nothing to the error stream. -/
theorem Parse_output (f : FlagSet) (arguments : List String)
    (h : (Parse f arguments).1 = none) : (Parse f arguments).2.output = f.output :=
  parseLoop_output _ _ h

theorem checkDomain_calls (transport : Transport) (domain : String) :
    (checkDomain transport domain).calls = [buildCall domain] := by
  unfold checkDomain
  dsimp only
  split
  · rfl
  · split_ifs <;> rfl

/-- Path of line 33: the flags do not parse. -/
theorem Run_parse_error (transport : Transport) (a : String) (tail : List String)
    (e : String) (h : (Parse NewFlagSet tail).1 = some e) :
    Run transport (a :: tail) =
      { code := Exit.returned ExitCodeParseFlagError, out := "",
        err := (Parse NewFlagSet tail).2.output, calls := [] } := by
  simp [Run, sliceFrom1, h]

/-- Path of lines 36-39: the flags parse and the domain is empty. -/
theorem Run_no_domain (transport : Transport) (a : String) (tail : List String)
    (h : (Parse NewFlagSet tail).1 = none) (hd : (Parse NewFlagSet tail).2.domain = "") :
    Run transport (a :: tail) =
      { code := Exit.returned ExitCodeNotExsistsDomainError, out := "",
        err := "Need Domain\n", calls := [] } := by
  have ho := Parse_output _ _ h
  have hs : Sprintf0 "Need Domain\n" = "Need Domain\n" := by decide
  have hn : NewFlagSet.output = "" := rfl
  simp [Run, sliceFrom1, h, hd, ho, hs, hn]

/-- Path of lines 43-46: the domain is not empty and `checkDomain` returns an
error. -/
theorem Run_check_error (transport : Transport) (a : String) (tail : List String)
    (d e : String) (h : (Parse NewFlagSet tail).1 = none)
    (hd : (Parse NewFlagSet tail).2.domain = d) (hne : d ≠ "")
    (herr : (checkDomain transport d).err = some e) :
    Run transport (a :: tail) =
      { code := Exit.returned ExitCodeCheckFalseError, out := "Domain: " ++ d ++ "\n",
        err := Sprintf0 e, calls := [buildCall d] } := by
  have ho := Parse_output _ _ h
  have hn : NewFlagSet.output = "" := rfl
  simp [Run, sliceFrom1, h, hd, hne, ho, hn, herr, SprintfS, checkDomain_calls]

/-- Path of line 49 for a nil result: the field access panics after the
header was written. -/
theorem Run_check_nil (transport : Transport) (a : String) (tail : List String)
    (d : String) (h : (Parse NewFlagSet tail).1 = none)
    (hd : (Parse NewFlagSet tail).2.domain = d) (hne : d ≠ "")
    (herr : (checkDomain transport d).err = none)
    (hres : (checkDomain transport d).result = none) :
    Run transport (a :: tail) =
      { code := Exit.panicked, out := "Domain: " ++ d ++ "\n" ++ "CipherSuites:\n",
        err := "", calls := [buildCall d] } := by
  have ho := Parse_output _ _ h
  have hn : NewFlagSet.output = "" := rfl
  have hs : Sprintf0 "CipherSuites:\n" = "CipherSuites:\n" := by decide
  simp [Run, sliceFrom1, h, hd, hne, ho, hn, herr, hres, hs, SprintfS, checkDomain_calls]

theorem foldl_append_acc (l : List String) (acc : String) :
    l.foldl (fun r s => r ++ s) acc = acc ++ l.foldl (fun r s => r ++ s) "" := by
  induction l generalizing acc with
  | nil => simp
  | cons x l ih =>
    rw [List.foldl_cons, List.foldl_cons, ih (acc ++ x), ih ("" ++ x)]
    simp [String.append_assoc]

theorem join_cons (x : String) (l : List String) :
    String.join (x :: l) = x ++ String.join l := by
  simp only [String.join, List.foldl_cons]
  rw [foldl_append_acc]
  simp

theorem printCipherSuites_eq (out : String) (cs : List String) :
    printCipherSuites out cs = out ++ String.join (cs.map (fun s => "  - " ++ s ++ "\n")) := by
  unfold printCipherSuites
  induction cs generalizing out with
  | nil => simp [String.join]
  | cons c cs ih =>
    rw [List.foldl_cons, ih, List.map_cons, join_cons]
    simp [SprintfS, String.append_assoc]

/-- Path of lines 48-52: the check succeeds with a result. -/
theorem Run_check_ok (transport : Transport) (a : String) (tail : List String)
    (d : String) (result : TLSStatus) (h : (Parse NewFlagSet tail).1 = none)
    (hd : (Parse NewFlagSet tail).2.domain = d) (hne : d ≠ "")
    (herr : (checkDomain transport d).err = none)
    (hres : (checkDomain transport d).result = some result) :
    Run transport (a :: tail) =
      { code := Exit.returned ExitCodeOK,
        out := "Domain: " ++ d ++ "\n" ++ "CipherSuites:\n" ++
          String.join (result.SslConfig.CipherSuites.map (fun s => "  - " ++ s ++ "\n")),
        err := "", calls := [buildCall d] } := by
  have ho := Parse_output _ _ h
  have hn : NewFlagSet.output = "" := rfl
  have hs : Sprintf0 "CipherSuites:\n" = "CipherSuites:\n" := by decide
  simp [Run, sliceFrom1, h, hd, hne, ho, hn, herr, hres, hs, SprintfS, checkDomain_calls,
    printCipherSuites_eq, String.append_assoc]

/-! ## The claims -/

/-- C1: for every argument list with at least the program name whose flags
parse and leave the domain empty, `Run` returns exit code 2, writes exactly
`Need Domain` and a newline to the error stream, writes nothing to the output
stream and never calls `client.Do`. -/
theorem Run_missing_domain (transport : Transport) (args : List String)
    (hlen : 1 ≤ args.length)
    (hparse : (Parse NewFlagSet (args.drop 1)).1 = none)
    (hdomain : (Parse NewFlagSet (args.drop 1)).2.domain = "") :
    (Run transport args).code = Exit.returned 2 ∧
    (Run transport args).err = "Need Domain\n" ∧
    (Run transport args).out = "" ∧
    (Run transport args).calls = [] := by
  cases args with
  | nil => simp at hlen
  | cons a tail =>
    simp only [List.drop_succ_cons, List.drop_zero] at hparse hdomain
    rw [Run_no_domain transport a tail hparse hdomain]
    exact ⟨rfl, rfl, rfl, rfl⟩

/-- C1 at the four kinds of argument list the claim names: no flag at all,
`--domain` with an empty value, `--domain=`, and a positional argument. -/
theorem Run_missing_domain_witness :
    (Run (respond ⟨200, "200 OK", bodyWith []⟩) ["tls-checker"]).code = Exit.returned 2 ∧
    (Run (respond ⟨200, "200 OK", bodyWith []⟩) ["tls-checker", "--domain", ""]).err
      = "Need Domain\n" ∧
    (Run (respond ⟨200, "200 OK", bodyWith []⟩) ["tls-checker", "--domain="]).calls = [] ∧
    (Run (respond ⟨200, "200 OK", bodyWith []⟩) ["tls-checker", "example.com"]).out = "" :=
  ⟨(Run_missing_domain _ _ (by decide) (by decide) (by decide)).1,
   (Run_missing_domain _ _ (by decide) (by decide) (by decide)).2.1,
   (Run_missing_domain _ _ (by decide) (by decide) (by decide)).2.2.2,
   (Run_missing_domain _ _ (by decide) (by decide) (by decide)).2.2.1⟩

/-- C3: for a response the transport delivers without error, `checkDomain`
returns the error `API result failed: ` followed by the status text, with a nil
result and without handing the body to the decoder, if and only if the status
code is below 200 or above 299; 200 and 299 are handed to the decoder, 199 and
300 fail; and for a status outside 200-299 `Run` returns exit code 3. -/
theorem checkDomain_status (transport : Transport) (domain : String) (resp : Response)
    (h : transport (buildCall domain) = Except.ok resp) :
    (((checkDomain transport domain).err = some ("API result failed: " ++ resp.Status) ∧
        (checkDomain transport domain).result.isNone = true ∧
        (checkDomain transport domain).decoded = false) ↔
      (resp.StatusCode < 200 ∨ resp.StatusCode > 299)) ∧
    ((resp.StatusCode = 200 ∨ resp.StatusCode = 299) →
      (checkDomain transport domain).decoded = true ∧
      (checkDomain transport domain).err = resp.Body.err) ∧
    ((resp.StatusCode = 199 ∨ resp.StatusCode = 300) →
      (checkDomain transport domain).decoded = false ∧
      (checkDomain transport domain).err = some ("API result failed: " ++ resp.Status)) ∧
    ((resp.StatusCode < 200 ∨ resp.StatusCode > 299) →
      ∀ (a : String) (tail : List String), (Parse NewFlagSet tail).1 = none →
        (Parse NewFlagSet tail).2.domain = domain → domain ≠ "" →
        (Run transport (a :: tail)).code = Exit.returned 3) := by
  have hcd : checkDomain transport domain =
      if resp.StatusCode < 200 ∨ resp.StatusCode > 299 then
        { result := none, err := some ("API result failed: " ++ resp.Status),
          calls := [buildCall domain], decoded := false }
      else
        { result := resp.Body.result, err := resp.Body.err,
          calls := [buildCall domain], decoded := true } := by
    simp only [checkDomain, h]
  refine ⟨?_, ?_, ?_, ?_⟩
  · constructor
    · intro hx
      by_contra hc
      rw [hcd, if_neg hc] at hx
      simp at hx
    · intro hc
      rw [hcd, if_pos hc]
      exact ⟨rfl, rfl, rfl⟩
  · intro hc
    have hn : ¬ (resp.StatusCode < 200 ∨ resp.StatusCode > 299) := by omega
    rw [hcd, if_neg hn]
    exact ⟨rfl, rfl⟩
  · intro hc
    have hn : resp.StatusCode < 200 ∨ resp.StatusCode > 299 := by omega
    rw [hcd, if_pos hn]
    exact ⟨rfl, rfl⟩
  · intro hc a tail hp hd hne
    have herr : (checkDomain transport domain).err =
        some ("API result failed: " ++ resp.Status) := by
      rw [hcd, if_pos hc]
    rw [Run_check_error transport a tail domain _ hp hd hne herr]
    rfl

/-- C3 at a response with status 503: `checkDomain` returns the error with
the status text and `Run` returns 3. -/
theorem checkDomain_status_witness :
    respond ⟨503, "503 Service Unavailable", bodyWith []⟩ (buildCall "example.com")
      = Except.ok ⟨503, "503 Service Unavailable", bodyWith []⟩ ∧
    (checkDomain (respond ⟨503, "503 Service Unavailable", bodyWith []⟩) "example.com").err
      = some "API result failed: 503 Service Unavailable" ∧
    (Run (respond ⟨503, "503 Service Unavailable", bodyWith []⟩)
      ["tls-checker", "--domain", "example.com"]).code = Exit.returned 3 :=
  ⟨rfl,
   (((checkDomain_status (respond ⟨503, "503 Service Unavailable", bodyWith []⟩)
      "example.com" ⟨503, "503 Service Unavailable", bodyWith []⟩ rfl).1.mpr
      (Or.inr (by decide))).1).trans (by decide),
   (checkDomain_status (respond ⟨503, "503 Service Unavailable", bodyWith []⟩)
      "example.com" ⟨503, "503 Service Unavailable", bodyWith []⟩ rfl).2.2.2
      (Or.inr (by decide)) "tls-checker" ["--domain", "example.com"]
      (by decide) (by decide) (by decide)⟩

/-- C8: for every non-empty domain `d` and every check that succeeds with a
result whose cipher suite list is `cs`, `Run` returns 0, writes nothing to the
error stream and writes to the output stream exactly the line `Domain: d`,
the line `CipherSuites:` and, for each name of `cs` in order, the line made
of two spaces, a dash, a space and the name.  The result `TLSStatus{}` that
the decoder starts from has the empty list. -/
theorem Run_success_output (transport : Transport) (args : List String) (d : String)
    (result : TLSStatus) (hlen : 1 ≤ args.length)
    (hparse : (Parse NewFlagSet (args.drop 1)).1 = none)
    (hdomain : (Parse NewFlagSet (args.drop 1)).2.domain = d) (hne : d ≠ "")
    (herr : (checkDomain transport d).err = none)
    (hres : (checkDomain transport d).result = some result) :
    (Run transport args).code = Exit.returned 0 ∧
    (Run transport args).err = "" ∧
    (Run transport args).out =
      "Domain: " ++ d ++ "\n" ++ "CipherSuites:\n" ++
        String.join (result.SslConfig.CipherSuites.map (fun s => "  - " ++ s ++ "\n")) ∧
    ({} : TLSStatus).SslConfig.CipherSuites = [] := by
  cases args with
  | nil => simp at hlen
  | cons a tail =>
    simp only [List.drop_succ_cons, List.drop_zero] at hparse hdomain
    rw [Run_check_ok transport a tail d result hparse hdomain hne herr hres]
    exact ⟨rfl, rfl, rfl, rfl⟩

/-- C8 at the answer with two cipher suites. -/
theorem Run_success_output_witness :
    (Run (respond ⟨200, "200 OK",
        bodyWith ["TLS_AES_128_GCM_SHA256", "TLS_CHACHA20_POLY1305_SHA256"]⟩)
      ["tls-checker", "--domain", "example.com"]).out =
      "Domain: example.com\nCipherSuites:\n  - TLS_AES_128_GCM_SHA256\n  - TLS_CHACHA20_POLY1305_SHA256\n" :=
  (Run_success_output
    (respond ⟨200, "200 OK",
      bodyWith ["TLS_AES_128_GCM_SHA256", "TLS_CHACHA20_POLY1305_SHA256"]⟩)
    ["tls-checker", "--domain", "example.com"] "example.com"
    { SslConfig := { CipherSuites := ["TLS_AES_128_GCM_SHA256", "TLS_CHACHA20_POLY1305_SHA256"] } }
    (by decide) (by decide) (by decide) (by decide) rfl rfl).2.2.1.trans (by decide)

/-- The lines of the cipher suite entries, when no name has a newline. -/
theorem splitSep_entries (cs : List String) (hcs : ∀ s ∈ cs, '\n' ∉ s.data) :
    splitSep '\n' (String.join (cs.map (fun s => "  - " ++ s ++ "\n"))).data =
      cs.map (fun s => ("  - " ++ s).data) := by
  induction cs with
  | nil => decide
  | cons c cs ih =>
    have hc : '\n' ∉ ("  - " ++ c).data := by
      have h1 := hcs c (List.mem_cons_self _ _)
      have h2 : '\n' ∉ "  - ".data := by decide
      simp only [String.data_append, List.mem_append, not_or]
      exact ⟨h2, h1⟩
    have hd : (String.join ((c :: cs).map (fun s => "  - " ++ s ++ "\n"))).data =
        ("  - " ++ c).data ++ '\n' ::
          (String.join (cs.map (fun s => "  - " ++ s ++ "\n"))).data := by
      rw [List.map_cons, join_cons]
      simp [String.data_append]
    rw [hd, splitSep_append _ _ _ hc, ih (fun s hs => hcs s (List.mem_cons_of_mem _ hs))]
    rfl

/-- C2, amended: for a non-empty domain and a check that succeeds with the
cipher suites `s_1 .. s_N`, none of them (nor the domain) with a newline, the
lines of the output are the domain line, the header line `CipherSuites:` and
then exactly N lines, the i-th being two spaces, a dash and a space followed
by `s_i`, in input order. -/
theorem Run_output_lines (transport : Transport) (args : List String) (d : String)
    (result : TLSStatus) (hlen : 1 ≤ args.length)
    (hparse : (Parse NewFlagSet (args.drop 1)).1 = none)
    (hdomain : (Parse NewFlagSet (args.drop 1)).2.domain = d) (hne : d ≠ "")
    (herr : (checkDomain transport d).err = none)
    (hres : (checkDomain transport d).result = some result)
    (hd : '\n' ∉ d.data)
    (hcs : ∀ s ∈ result.SslConfig.CipherSuites, '\n' ∉ s.data) :
    linesOf (Run transport args).out =
      ("Domain: " ++ d) :: "CipherSuites:" ::
        result.SslConfig.CipherSuites.map (fun s => "  - " ++ s) := by
  cases args with
  | nil => simp at hlen
  | cons a tail =>
    simp only [List.drop_succ_cons, List.drop_zero] at hparse hdomain
    rw [Run_check_ok transport a tail d result hparse hdomain hne herr hres]
    have h1 : '\n' ∉ ("Domain: " ++ d).data := by
      have h2 : '\n' ∉ "Domain: ".data := by decide
      simp only [String.data_append, List.mem_append, not_or]
      exact ⟨h2, hd⟩
    have h3 : '\n' ∉ "CipherSuites:".data := by decide
    have hdata : ("Domain: " ++ d ++ "\n" ++ "CipherSuites:\n" ++
        String.join (result.SslConfig.CipherSuites.map (fun s => "  - " ++ s ++ "\n"))).data =
        ("Domain: " ++ d).data ++ '\n' :: ("CipherSuites:".data ++ '\n' ::
          (String.join
            (result.SslConfig.CipherSuites.map (fun s => "  - " ++ s ++ "\n"))).data) := by
      simp [String.data_append]
    simp only [linesOf]
    rw [hdata, splitSep_append _ _ _ h1, splitSep_append _ _ _ h3, splitSep_entries _ hcs]
    simp only [List.map_cons, List.map_map]
    refine congrArg₂ _ rfl (congrArg₂ _ rfl ?_)
    apply List.map_congr_left
    intro s _
    rfl

/-- C2, amended, at the answer with two cipher suites. -/
theorem Run_output_lines_witness :
    linesOf (Run (respond ⟨200, "200 OK",
        bodyWith ["TLS_AES_128_GCM_SHA256", "TLS_CHACHA20_POLY1305_SHA256"]⟩)
      ["tls-checker", "--domain", "example.com"]).out =
      ["Domain: example.com", "CipherSuites:", "  - TLS_AES_128_GCM_SHA256",
        "  - TLS_CHACHA20_POLY1305_SHA256"] :=
  (Run_output_lines
    (respond ⟨200, "200 OK",
      bodyWith ["TLS_AES_128_GCM_SHA256", "TLS_CHACHA20_POLY1305_SHA256"]⟩)
    ["tls-checker", "--domain", "example.com"] "example.com"
    { SslConfig := { CipherSuites := ["TLS_AES_128_GCM_SHA256", "TLS_CHACHA20_POLY1305_SHA256"] } }
    (by decide) (by decide) (by decide) (by decide) rfl rfl (by decide) (by decide)).trans
    (by decide)

/-- C2 as stated fails: it says that the domain line is followed by exactly N
lines, the i-th equal to `s_i`.  For an answer without cipher suites (N = 0)
the domain line is followed by one line, the header; for an answer with the
one name `X` it is followed by two lines, none of them equal to `X`. -/
theorem Run_output_lines_counterexample :
    linesOf (Run (respond ⟨200, "200 OK", bodyWith []⟩)
      ["tls-checker", "--domain", "example.com"]).out
        = ["Domain: example.com", "CipherSuites:"] ∧
    linesOf (Run (respond ⟨200, "200 OK", bodyWith []⟩)
      ["tls-checker", "--domain", "example.com"]).out
        ≠ "Domain: example.com" :: [] ∧
    linesOf (Run (respond ⟨200, "200 OK", bodyWith ["X"]⟩)
      ["tls-checker", "--domain", "example.com"]).out
        ≠ "Domain: example.com" :: ["X"] := by
  decide

/-- C10, amended: for every argument list of length at least one the slice
`args[1:]` is in bounds and the result of `Run` (exit code, both streams and
the calls made) does not depend on `args[0]`; for the empty argument list the
slice expression is out of range and `Run` panics. -/
theorem Run_args_tail (transport : Transport) (a b : String) (tail : List String) :
    sliceFrom1 (a :: tail) = some tail ∧
    Run transport (a :: tail) = Run transport (b :: tail) ∧
    sliceFrom1 [] = none ∧
    (Run transport []).code = Exit.panicked := by
  refine ⟨?_, ?_, ?_, ?_⟩
  · simp [sliceFrom1]
  · simp [Run, sliceFrom1]
  · simp [sliceFrom1]
  · simp [Run, sliceFrom1]

/-- C10 as stated fails: for the empty argument list the slice expression
`args[1:]` is out of range and `Run` panics instead of returning. -/
theorem Run_empty_args_counterexample :
    sliceFrom1 [] = none ∧
    (Run (respond ⟨200, "200 OK", bodyWith []⟩) []).code = Exit.panicked ∧
    ¬ ∃ code, (Run (respond ⟨200, "200 OK", bodyWith []⟩) []).code = Exit.returned code := by
  have hp : (Run (respond ⟨200, "200 OK", bodyWith []⟩) []).code = Exit.panicked := by
    decide
  refine ⟨by decide, hp, ?_⟩
  rintro ⟨code, h⟩
  rw [hp] at h
  cases h

/-- C4, the failing input: for the status text `503 %d` the error message is
`API result failed: 503 %d`; it is passed to `Fprintf` as the format, so the
text written to the error stream has `%!d(MISSING)` in place of `%d` and the
status text is not a part of it. -/
theorem Run_status_text_as_format :
    (checkDomain (respond ⟨503, "503 %d", bodyWith []⟩) "example.com").err
      = some "API result failed: 503 %d" ∧
    (Run (respond ⟨503, "503 %d", bodyWith []⟩)
      ["tls-checker", "--domain", "example.com"]).err
      = "API result failed: 503 %!d(MISSING)" ∧
    ¬ List.IsInfix "503 %d".data
      (Run (respond ⟨503, "503 %d", bodyWith []⟩)
        ["tls-checker", "--domain", "example.com"]).err.data := by
  decide

/-- C9, the failing input: for a response with status 200 and the body `null`
`checkDomain` returns a nil error together with a nil result, and the field
access of line 49 in `Run` panics. -/
theorem checkDomain_null_body :
    (checkDomain (respond ⟨200, "200 OK", nullBody⟩) "example.com").err = none ∧
    (checkDomain (respond ⟨200, "200 OK", nullBody⟩) "example.com").decoded = true ∧
    (checkDomain (respond ⟨200, "200 OK", nullBody⟩) "example.com").result.isNone = true ∧
    (Run (respond ⟨200, "200 OK", nullBody⟩)
      ["tls-checker", "--domain", "example.com"]).code = Exit.panicked := by
  decide

/-- The exit-code mapping of `Run` for an argument list with the program
name: 1 when the flags do not parse, 2 for an empty domain, 3 when
`checkDomain` returns an error, 0 when it returns a result without error; when
it returns neither a result nor an error `Run` panics.  No other value is
returned. -/
theorem Run_exit_code (transport : Transport) (a : String) (tail : List String) :
    ((Run transport (a :: tail)).code = Exit.returned 1 ↔
      (Parse NewFlagSet tail).1.isSome = true) ∧
    ((Run transport (a :: tail)).code = Exit.returned 2 ↔
      (Parse NewFlagSet tail).1 = none ∧ (Parse NewFlagSet tail).2.domain = "") ∧
    ((Run transport (a :: tail)).code = Exit.returned 3 ↔
      (Parse NewFlagSet tail).1 = none ∧ (Parse NewFlagSet tail).2.domain ≠ "" ∧
      (checkDomain transport (Parse NewFlagSet tail).2.domain).err.isSome = true) ∧
    ((Run transport (a :: tail)).code = Exit.returned 0 ↔
      (Parse NewFlagSet tail).1 = none ∧ (Parse NewFlagSet tail).2.domain ≠ "" ∧
      (checkDomain transport (Parse NewFlagSet tail).2.domain).err = none ∧
      (checkDomain transport (Parse NewFlagSet tail).2.domain).result.isSome = true) ∧
    ((Run transport (a :: tail)).code = Exit.panicked ↔
      (Parse NewFlagSet tail).1 = none ∧ (Parse NewFlagSet tail).2.domain ≠ "" ∧
      (checkDomain transport (Parse NewFlagSet tail).2.domain).err = none ∧
      (checkDomain transport (Parse NewFlagSet tail).2.domain).result = none) ∧
    (∀ n, (Run transport (a :: tail)).code = Exit.returned n →
      n = 0 ∨ n = 1 ∨ n = 2 ∨ n = 3) := by
  rcases hp : (Parse NewFlagSet tail).1 with _ | e
  · by_cases hd : (Parse NewFlagSet tail).2.domain = ""
    · rw [Run_no_domain transport a tail hp hd]
      simp [hd, ExitCodeNotExsistsDomainError]
    · rcases he : (checkDomain transport (Parse NewFlagSet tail).2.domain).err with _ | e
      · rcases hr : (checkDomain transport (Parse NewFlagSet tail).2.domain).result
          with _ | r
        · rw [Run_check_nil transport a tail _ hp rfl hd he hr]
          simp [hd]
        · rw [Run_check_ok transport a tail _ r hp rfl hd he hr]
          simp [hd, ExitCodeOK]
      · rw [Run_check_error transport a tail _ e hp rfl hd he]
        simp [hd, ExitCodeCheckFalseError]
  · rw [Run_parse_error transport a tail e hp]
    simp [ExitCodeParseFlagError]

/-- C5, the failing input: the four constants are 0, 1, 2 and 3; for the
arguments `--domain example.com` and a response with status 200 and the body
`null` the flags parse, the domain is not empty and `checkDomain` returns no
error, yet `Run` does not return 0: it panics. -/
theorem Run_exit_code_null_body :
    ExitCodeOK = 0 ∧ ExitCodeParseFlagError = 1 ∧
    ExitCodeNotExsistsDomainError = 2 ∧ ExitCodeCheckFalseError = 3 ∧
    (Parse NewFlagSet ["--domain", "example.com"]).1 = none ∧
    (Parse NewFlagSet ["--domain", "example.com"]).2.domain = "example.com" ∧
    (checkDomain (respond ⟨200, "200 OK", nullBody⟩) "example.com").err = none ∧
    (Run (respond ⟨200, "200 OK", nullBody⟩)
      ["tls-checker", "--domain", "example.com"]).code ≠ Exit.returned ExitCodeOK := by
  decide

/-- C6, the failing input: for a response with status 200 whose body is the
single character `%` the decoder returns the syntax error that quotes the
character; `Run` returns 3 and writes only the domain line to the output
stream, but the message is passed to `Fprintf` as the format, so the text
written to the error stream is not the message: it has `%!'(MISSING)` in
place of the quoted percent sign. -/
theorem Run_decode_error_as_format :
    (checkDomain (respond ⟨200, "200 OK",
        badBody "invalid character '%' looking for beginning of value"⟩) "example.com").err
      = some "invalid character '%' looking for beginning of value" ∧
    (Run (respond ⟨200, "200 OK",
        badBody "invalid character '%' looking for beginning of value"⟩)
      ["tls-checker", "--domain", "example.com"]).code = Exit.returned 3 ∧
    (Run (respond ⟨200, "200 OK",
        badBody "invalid character '%' looking for beginning of value"⟩)
      ["tls-checker", "--domain", "example.com"]).out = "Domain: example.com\n" ∧
    (Run (respond ⟨200, "200 OK",
        badBody "invalid character '%' looking for beginning of value"⟩)
      ["tls-checker", "--domain", "example.com"]).err
      = "invalid character '%!'(MISSING) looking for beginning of value" ∧
    (Run (respond ⟨200, "200 OK",
        badBody "invalid character '%' looking for beginning of value"⟩)
      ["tls-checker", "--domain", "example.com"]).err
      ≠ "invalid character '%' looking for beginning of value" := by
  decide

end CsChecker
